import Mathlib

/-!
Verification of the dyson-cli device resolution, address resolution,
session lifecycle and telemetry normalization logic.

The definitions below are a shallow embedding of `src/dyson_cli/config.py`
and `src/dyson_cli/cli.py`.  Python `str | None` values become
`Option String`; Python truthiness tests (`if name:`, `if not ip:`,
`x or 0`) are modelled explicitly by `pyTruthy`-style helpers;
side-effecting command handlers become pure functions returning the
sequence of device-client calls they make, the resulting config, an exit
outcome and the messages they print.
-/

namespace DysonCli

/-- One device record, mirroring `DeviceConfig` (config.py).
`ip` is `NotRequired`, hence optional. -/
structure DeviceConfig where
  name : String
  serial : String
  credential : String
  product_type : String
  ip : Option String
  deriving Repr, DecidableEq

/-- The persisted config root, mirroring `Config` (config.py). -/
structure Config where
  devices : List DeviceConfig
  default_device : Option String
  deriving Repr, DecidableEq

/-- Python `str.lower()` as exercised by the identifiers here: character-wise
lowercasing (`Char.toLower` mapped over the string's characters). -/
def lowerStr (s : String) : String := ⟨s.data.map Char.toLower⟩

/-- Python truthiness of a `str | None` value: `None` and `""` are falsy. -/
def pyTruthyStr (s : Option String) : Bool :=
  match s with
  | none => false
  | some t => t ≠ ""

/-- The loop body of `get_device` (config.py lines 58-65): scan the
collection in order; for each record compare `name` case-insensitively,
then `serial`; first match wins. -/
def findDevice (name : String) : List DeviceConfig → Option DeviceConfig
  | [] => none
  | d :: rest =>
    if lowerStr d.name = lowerStr name then some d
    else if lowerStr d.serial = lowerStr name then some d
    else findDevice name rest

/-- `get_device` (config.py lines 49-71) with explicit recursion fuel.
The Python function recurses once, on the configured default name, which
is guarded to be truthy; fuel 2 therefore reproduces it exactly
(`get_device_fuel_stable` below proves the fuel is sufficient). -/
def get_device_fuel : Nat → Option String → Config → Option DeviceConfig
  | 0, _, _ => none
  | fuel + 1, name, config =>
    if config.devices.isEmpty then none
    else if pyTruthyStr name then
      findDevice (name.getD "") config.devices
    else if pyTruthyStr config.default_device then
      get_device_fuel fuel (some (config.default_device.getD "")) config
    else config.devices.head?

/-- `get_device(name)` from config.py: resolve an optional identifier
against the device collection. -/
def get_device (name : Option String) (config : Config) : Option DeviceConfig :=
  get_device_fuel 2 name config

/-- Any fuel of at least 2 computes the same result: the single recursive
call always takes the truthy branch, which does not recurse again. -/
theorem get_device_fuel_stable (fuel : Nat) (name : Option String) (config : Config) :
    get_device_fuel (fuel + 2) name config = get_device_fuel 2 name config := by
  simp only [get_device_fuel]
  split
  · rfl
  · split
    · rfl
    · split
      · rename_i hemp htr hdef
        cases hd : config.default_device with
        | none => simp [hd, pyTruthyStr] at hdef
        | some s =>
          rw [hd] at hdef
          simp only [pyTruthyStr, ne_eq, decide_not] at hdef
          simp only [hd, Option.getD_some]
          simp only [get_device_fuel, hemp, if_false, pyTruthyStr]
          simp [hdef]
      · rfl

/-- The lookup loop of `remove_device` (cli.py lines 822-826): first record
whose `name` or `serial` matches case-insensitively. -/
def findRemoval (name : String) : List DeviceConfig → Option DeviceConfig
  | [] => none
  | d :: rest =>
    if lowerStr d.name = lowerStr name ∨ lowerStr d.serial = lowerStr name then some d
    else findRemoval name rest

/-- Result of the `remove` command. -/
inductive RemoveResult where
  | notFound
  | cancelled (cfg : Config)
  | removed (cfg : Config)
  deriving Repr, DecidableEq

/-- `remove_device` (cli.py lines 816-844).  `confirmAnswer` is the user's
interactive answer consumed only when `force` is false.  On removal the
collection is filtered by exact serial inequality and, when the removed
record's name was the default, the default is reassigned to the first
remaining record's name (or `None` when none remain); the result is saved. -/
def remove_device (name : String) (force confirmAnswer : Bool) (cfg : Config) : RemoveResult :=
  match findRemoval name cfg.devices with
  | none => .notFound
  | some device =>
    if ¬force ∧ ¬confirmAnswer then .cancelled cfg
    else
      let devices' := cfg.devices.filter (fun d => d.serial ≠ device.serial)
      let default' :=
        if cfg.default_device = some device.name then
          (devices'.head?).map DeviceConfig.name
        else cfg.default_device
      .removed ⟨devices', default'⟩

/-! ## Raw device state and its normalization (the `status` command) -/

/-- The `raw_state` dictionary built in `status` (cli.py lines 336-352).
Every device attribute read with `getattr(_, _, None)` is optional;
identity fields (name/serial/type) are omitted here as they come from the
config record, not the device. -/
structure RawState where
  connected : Bool
  is_on : Option Bool
  auto_mode : Option Bool
  speed : Option Int
  oscillation : Option Bool
  oscillation_angle_low : Option Int
  oscillation_angle_high : Option Int
  night_mode : Option Bool
  heat_mode_is_on : Option Bool
  heat_target : Option Int
  temperature : Option Int
  humidity : Option Int
  deriving Repr, DecidableEq

/-- Python `x or d` on an `int | None` value: `None` and `0` are falsy and
are replaced by the default. -/
def pyOrInt (x : Option Int) (d : Int) : Int :=
  match x with
  | none => d
  | some v => if v = 0 then d else v

/-- Python truthiness of a `bool | None` value. -/
def pyTruthyBool (b : Option Bool) : Bool := b.getD false

/-- The oscillation row of the human status table (cli.py lines 377-385):
when `oscillation` is truthy the row shows
`(angle_high - angle_low, angle_low, angle_high)` with each absent bound
replaced by `0` via `or 0`; otherwise the row shows "Off" (`none` here). -/
def oscillationView (raw : RawState) : Option (Int × Int × Int) :=
  if pyTruthyBool raw.oscillation then
    let angle_low := pyOrInt raw.oscillation_angle_low 0
    let angle_high := pyOrInt raw.oscillation_angle_high 0
    some (angle_high - angle_low, angle_low, angle_high)
  else none

/-- The heat row content: on with a target in Celsius, or off. -/
inductive HeatView where
  | heatOff
  | heatOn (targetC : Int)
  deriving Repr, DecidableEq

/-- The heat row of the human status table (cli.py lines 388-395): shown
only when `heat_mode_is_on` is not `None`; when on, the displayed target is
`(heat_target or 293) - 273`. -/
def heatView (raw : RawState) : Option HeatView :=
  match raw.heat_mode_is_on with
  | none => none
  | some b =>
    if b then some (.heatOn (pyOrInt raw.heat_target 293 - 273))
    else some .heatOff

/-- The temperature row of the human status table (cli.py lines 398-401):
present only when the raw reading is not `None`; displayed in Celsius as
`int(temp) - 273`. -/
def temperatureView (raw : RawState) : Option Int :=
  match raw.temperature with
  | none => none
  | some t => some (t - 273)

/-- The `temperature` entry of the JSON output (cli.py lines 356-358):
`json.dumps(raw_state)` serializes the dictionary exactly as built, so the
machine-readable value is the raw reading unchanged. -/
def temperatureJson (raw : RawState) : Option Int := raw.temperature

/-! ## Address resolution (the discovery block of `status`) -/

/-- The loop over `discovery.devices.items()` (cli.py lines 310-320): the
first scan entry whose serial equals the record's serial (exact string
comparison) yields its address; the loop breaks on that match. -/
def findScan (serial : String) : List (String × String) → Option String
  | [] => none
  | (s, addr) :: rest => if s = serial then some addr else findScan serial rest

/-- The persistence loop (cli.py lines 314-318): set `ip` on every config
record whose serial equals the discovered serial, then save the whole
config. -/
def persistIp (serial addr : String) (cfg : Config) : Config :=
  { cfg with
    devices := cfg.devices.map
      (fun d => if d.serial = serial then { d with ip := some addr } else d) }

/-- Outcome of the address-resolution block: the address found (if any),
the persisted config afterwards, how many discovery scans were started and
how many full config saves were performed. -/
structure ResolveOutcome where
  address : Option String
  config : Config
  discoveryCalls : Nat
  saves : Nat
  deriving Repr, DecidableEq

/-- The address-resolution block of `status` (cli.py lines 297-326): if the
record's `ip` is truthy, use it with no discovery; otherwise run one
bounded discovery scan (`scan` is the serial→address mapping it reports; a
discovery-transport failure is the no-match case) and, on a serial match,
persist the address into the full config and save. -/
def resolveAddress (dc : DeviceConfig) (cfg : Config) (scan : List (String × String)) :
    ResolveOutcome :=
  if pyTruthyStr dc.ip then ⟨dc.ip, cfg, 0, 0⟩
  else
    match findScan dc.serial scan with
    | some addr => ⟨some addr, persistIp dc.serial addr cfg, 1, 1⟩
    | none => ⟨none, cfg, 1, 0⟩

/-! ## Session lifecycle traces (control commands and `status`) -/

/-- One call made to the external device-protocol client. -/
inductive CallEv where
  | connectCall (ip : String)
  | turnOnCall
  | turnOffCall
  | readStateCall
  | setSpeedCall (n : Int)
  | enableAutoCall
  | disableAutoCall
  | disconnectCall
  deriving Repr, DecidableEq

/-- Which client calls raise an exception in a given run.  Each flag makes
the corresponding call raise when it is reached. -/
structure ClientBehavior where
  connectRaises : Bool
  turnOnRaises : Bool
  turnOffRaises : Bool
  setSpeedRaises : Bool
  autoModeRaises : Bool
  readRaises : Bool
  disconnectRaises : Bool
  deriving Repr, DecidableEq

/-- Exit codes from cli.py lines 24-28. -/
def EXIT_SUCCESS : Nat := 0

def EXIT_ERROR : Nat := 1

def EXIT_CONNECTION_ERROR : Nat := 3

def EXIT_DEVICE_NOT_FOUND : Nat := 4

/-- How a command handler terminates: normal return, or `sys.exit(code)`. -/
inductive Outcome where
  | ok
  | exitWith (code : Nat)
  deriving Repr, DecidableEq

/-- The `try` block of `_control_power` (cli.py lines 465-482): connect,
then `turn_on`/`turn_off`, then disconnect.  Returns the client calls
attempted in order and whether the block completed without an exception;
a raising call is attempted (appears in the trace) and control then jumps
to the `except` handler, skipping the remaining calls — in particular no
disconnect is attempted after a connect or operation failure. -/
def controlPowerTry (b : ClientBehavior) (power_on : Bool) (ip : String) :
    List CallEv × Bool :=
  if b.connectRaises then ([.connectCall ip], false)
  else
    let op := if power_on then CallEv.turnOnCall else CallEv.turnOffCall
    let opRaises := if power_on then b.turnOnRaises else b.turnOffRaises
    if opRaises then ([.connectCall ip, op], false)
    else if b.disconnectRaises then ([.connectCall ip, op, .disconnectCall], false)
    else ([.connectCall ip, op, .disconnectCall], true)

/-- The `try` block of `status` (cli.py lines 330-354): connect, read the
raw state, disconnect; same exception discipline as `controlPowerTry`. -/
def statusTry (b : ClientBehavior) (ip : String) : List CallEv × Bool :=
  if b.connectRaises then ([.connectCall ip], false)
  else if b.readRaises then ([.connectCall ip, .readStateCall], false)
  else if b.disconnectRaises then ([.connectCall ip, .readStateCall, .disconnectCall], false)
  else ([.connectCall ip, .readStateCall, .disconnectCall], true)

/-- Result of running a command handler: client calls made, the persisted
config afterwards, the termination outcome, and the messages printed
(exception text from the `except` handler is not modelled). -/
structure CommandResult where
  calls : List CallEv
  config : Config
  outcome : Outcome
  messages : List String
  deriving Repr, DecidableEq

/-- `_control_power` (cli.py lines 435-482): resolve the device, require a
configured ip, short-circuit on dry-run with a description, otherwise run
the connect/operate/disconnect session.  The handler never calls
`save_config`, so the persisted config is returned unchanged on every
path. -/
def controlPower (device_name : Option String) (cfg : Config) (power_on dry_run : Bool)
    (b : ClientBehavior) : CommandResult :=
  match get_device device_name cfg with
  | none => ⟨[], cfg, .exitWith EXIT_DEVICE_NOT_FOUND, ["[red]No device found.[/red]"]⟩
  | some dc =>
    if ¬pyTruthyStr dc.ip then
      ⟨[], cfg, .exitWith EXIT_CONNECTION_ERROR,
        ["[red]No IP configured. Run 'dyson status' first to discover.[/red]"]⟩
    else
      let ip := dc.ip.getD ""
      let action := if power_on then "turn on" else "turn off"
      if dry_run then
        ⟨[], cfg, .ok, ["[dim]Would " ++ action ++ " " ++ dc.name ++ " at " ++ ip ++ "[/dim]"]⟩
      else
        let r := controlPowerTry b power_on ip
        if r.2 then
          ⟨r.1, cfg, .ok,
            [if power_on then "[green]✓ " ++ dc.name ++ " turned on[/green]"
             else "[green]✓ " ++ dc.name ++ " turned off[/green]"]⟩
        else ⟨r.1, cfg, .exitWith EXIT_CONNECTION_ERROR, []⟩

/-- The `try` block of `fan_speed` (cli.py lines 524-542): connect, then
either `enable_auto_mode` or `disable_auto_mode`; `set_speed(int(speed))`,
then disconnect.  `validate_speed` guarantees `speed` parses when it is not
"auto". -/
def fanSpeedTry (b : ClientBehavior) (speed : String) (ip : String) :
    List CallEv × Bool :=
  if b.connectRaises then ([.connectCall ip], false)
  else if lowerStr speed = "auto" then
    if b.autoModeRaises then ([.connectCall ip, .enableAutoCall], false)
    else if b.disconnectRaises then
      ([.connectCall ip, .enableAutoCall, .disconnectCall], false)
    else ([.connectCall ip, .enableAutoCall, .disconnectCall], true)
  else
    let speed_int := (speed.toInt?).getD 0
    if b.autoModeRaises then ([.connectCall ip, .disableAutoCall], false)
    else if b.setSpeedRaises then
      ([.connectCall ip, .disableAutoCall, .setSpeedCall speed_int], false)
    else if b.disconnectRaises then
      ([.connectCall ip, .disableAutoCall, .setSpeedCall speed_int, .disconnectCall], false)
    else ([.connectCall ip, .disableAutoCall, .setSpeedCall speed_int, .disconnectCall], true)

/-- `fan_speed` (cli.py lines 496-542): resolve the device, require a
configured ip, short-circuit on dry-run with a description, otherwise run
the session.  Like `_control_power` it never saves the config.  Success
messages are omitted (`[]`) as they are not part of any verified claim. -/
def fanSpeed (speed : String) (device_name : Option String) (cfg : Config)
    (dry_run : Bool) (b : ClientBehavior) : CommandResult :=
  match get_device device_name cfg with
  | none => ⟨[], cfg, .exitWith EXIT_DEVICE_NOT_FOUND, ["[red]No device found.[/red]"]⟩
  | some dc =>
    if ¬pyTruthyStr dc.ip then
      ⟨[], cfg, .exitWith EXIT_CONNECTION_ERROR, ["[red]No IP configured.[/red]"]⟩
    else
      let ip := dc.ip.getD ""
      if dry_run then
        ⟨[], cfg, .ok,
          ["[dim]Would set fan speed to " ++ speed ++ " on " ++ dc.name ++ " at " ++ ip
            ++ "[/dim]"]⟩
      else
        let r := fanSpeedTry b speed ip
        if r.2 then ⟨r.1, cfg, .ok, []⟩
        else ⟨r.1, cfg, .exitWith EXIT_CONNECTION_ERROR, []⟩

/-! ## Helper lemmas -/

/-- Non-recursive characterization of `get_device`: the single recursive
call (on a truthy default) reduces to a plain scan of the collection. -/
theorem get_device_unfold (name : Option String) (cfg : Config) :
    get_device name cfg =
      if cfg.devices.isEmpty then none
      else if pyTruthyStr name then findDevice (name.getD "") cfg.devices
      else if pyTruthyStr cfg.default_device then
        findDevice (cfg.default_device.getD "") cfg.devices
      else cfg.devices.head? := by
  show get_device_fuel (1 + 1) name cfg = _
  rw [get_device_fuel]
  split
  · rfl
  · split
    · rfl
    · split
      · rename_i hemp htr hdef
        rw [get_device_fuel]
        cases hd : cfg.default_device with
        | none => rw [hd] at hdef; simp [pyTruthyStr] at hdef
        | some s =>
          rw [hd] at hdef
          simp only [pyTruthyStr, ne_eq, decide_not] at hdef
          simp only [hd, Option.getD_some, hemp, if_false, pyTruthyStr]
          simp [hdef]
      · rfl

/-- In a collection whose prefix contains no match, the scan returns the
first record that matches by name or serial. -/
theorem findDevice_first_match (n : String) (l1 l2 : List DeviceConfig) (d : DeviceConfig)
    (hpre : ∀ d' ∈ l1, lowerStr d'.name ≠ lowerStr n ∧ lowerStr d'.serial ≠ lowerStr n)
    (hd : lowerStr d.name = lowerStr n ∨ lowerStr d.serial = lowerStr n) :
    findDevice n (l1 ++ d :: l2) = some d := by
  induction l1 with
  | nil =>
    rcases hd with h | h
    · simp [findDevice, h]
    · simp only [List.nil_append, findDevice, h, if_true]
      split <;> rfl
  | cons a tl ih =>
    have ha := hpre a (List.mem_cons_self a tl)
    simp only [List.cons_append, findDevice, ha.1, ha.2, if_false]
    exact ih fun d' hmem => hpre d' (List.mem_cons_of_mem a hmem)

/-! ## Claims -/

/-- C2, counterexample: with the collection
`[{name Bedroom, serial ABC123}, {name abc123, serial XYZ}]` the identifier
`abc123` matches the second record's name case-insensitively, yet
`get_device` returns the first record via its serial: the scan is a single
in-order pass with a per-record name-then-serial check, not a pass over all
names before any serial. -/
theorem claim_C2_counterexample :
    get_device (some "abc123")
        ⟨[⟨"Bedroom", "ABC123", "c1", "438", none⟩,
          ⟨"abc123", "XYZ", "c2", "438", none⟩], none⟩
      = some ⟨"Bedroom", "ABC123", "c1", "438", none⟩
    ∧ lowerStr "abc123" = lowerStr "abc123"
    ∧ lowerStr "Bedroom" ≠ lowerStr "abc123" := by decide

/-- C2 (amended): resolution is case-insensitive and scans the collection
in a single pass; the first record whose name or serial matches is
returned, the name being compared before the serial within each record.
Name precedence therefore holds within a record, not across the
collection: an earlier record's serial match wins over a later record's
name match (see the counterexample). -/
theorem claim_C2_amended (n : String) (dflt : Option String)
    (l1 l2 : List DeviceConfig) (d : DeviceConfig)
    (hn : n ≠ "")
    (hpre : ∀ d' ∈ l1, lowerStr d'.name ≠ lowerStr n ∧ lowerStr d'.serial ≠ lowerStr n)
    (hd : lowerStr d.name = lowerStr n ∨ lowerStr d.serial = lowerStr n) :
    get_device (some n) ⟨l1 ++ d :: l2, dflt⟩ = some d := by
  rw [get_device_unfold]
  have hne : (l1 ++ d :: l2).isEmpty = false := by cases l1 <;> simp [List.isEmpty]
  simp only [hne, if_false, pyTruthyStr, hn, ne_eq, not_false_eq_true, decide_True, if_true,
    Option.getD_some]
  exact findDevice_first_match n l1 l2 d hpre hd

theorem claim_C2_witness :
    get_device (some "living room")
        ⟨[⟨"Living Room", "ABC123", "c", "438", none⟩], none⟩
      = some ⟨"Living Room", "ABC123", "c", "438", none⟩ :=
  claim_C2_amended "living room" none [] []
    ⟨"Living Room", "ABC123", "c", "438", none⟩
    (by decide) (by simp) (Or.inl (by decide))

/-- C3, counterexample: a one-record collection with a stale default
(`default_device` matching no record's name or serial) resolves the
no-identifier case to `none` (NotFound), not to the first record. -/
theorem claim_C3_counterexample :
    get_device none ⟨[⟨"Kitchen", "K1", "c", "438", none⟩], some "Ghost"⟩ = none
    ∧ ([⟨"Kitchen", "K1", "c", "438", none⟩] : List DeviceConfig) ≠ []
    ∧ findDevice "Ghost" [⟨"Kitchen", "K1", "c", "438", none⟩] = none := by decide

/-- C3 (amended): a stale default is not tolerated: when `default_device`
is set (truthy) but matches no record, resolving with no identifier
returns NotFound (`none`), never the first record — the recursive call on
the stale name propagates its miss. -/
theorem claim_C3_amended (cfg : Config) (dn : String)
    (hdef : cfg.default_device = some dn) (hne : dn ≠ "")
    (hstale : findDevice dn cfg.devices = none) :
    get_device none cfg = none := by
  rw [get_device_unfold]
  simp [pyTruthyStr, hdef, hne, hstale]

theorem claim_C3_witness :
    get_device none ⟨[⟨"Lounge", "L1", "c", "438", none⟩], some "Gone"⟩ = none :=
  claim_C3_amended ⟨[⟨"Lounge", "L1", "c", "438", none⟩], some "Gone"⟩ "Gone"
    rfl (by decide) (by decide)

/-- C10, counterexample: with a non-empty collection and a stale default,
`get_device ""` returns `none` (NotFound), so the "rather than NotFound"
part of the claim fails for some non-empty collections. -/
theorem claim_C10_counterexample :
    get_device (some "") ⟨[⟨"Office", "O1", "c", "438", none⟩], some "Phantom"⟩ = none
    ∧ ([⟨"Office", "O1", "c", "438", none⟩] : List DeviceConfig) ≠ [] := by decide

/-- C10 (amended): the empty string is falsy, so `get_device ""` takes
exactly the no-identifier path (`get_device (some "") = get_device none`
on every config); with no default set and a non-empty collection the first
record is returned. (When a default is set it is resolved as an
identifier, which yields NotFound exactly when the default is stale.) -/
theorem claim_C10_amended (cfg : Config) :
    get_device (some "") cfg = get_device none cfg
    ∧ (cfg.default_device = none → ∀ d rest, cfg.devices = d :: rest →
        get_device (some "") cfg = some d) := by
  constructor
  · rw [get_device_unfold, get_device_unfold]
    simp [pyTruthyStr]
  · intro hdef d rest hdev
    rw [get_device_unfold]
    simp [pyTruthyStr, hdef, hdev]

theorem claim_C10_witness :
    get_device (some "") ⟨[⟨"Den", "D1", "c", "438", none⟩], none⟩
      = get_device none ⟨[⟨"Den", "D1", "c", "438", none⟩], none⟩
    ∧ get_device (some "") ⟨[⟨"Den", "D1", "c", "438", none⟩], none⟩
      = some ⟨"Den", "D1", "c", "438", none⟩ :=
  ⟨(claim_C10_amended ⟨[⟨"Den", "D1", "c", "438", none⟩], none⟩).1,
   (claim_C10_amended ⟨[⟨"Den", "D1", "c", "438", none⟩], none⟩).2 rfl
     ⟨"Den", "D1", "c", "438", none⟩ [] rfl⟩

/-- C4, counterexample: with oscillation active, `angle_low = 45` and
`angle_high` absent, the displayed range is present and equals
`0 - 45 = -45`: the absent bound is substituted with `0` via `or 0`, not
treated as making the range absent. -/
theorem claim_C4_counterexample :
    oscillationView
        ⟨true, none, none, none, some true, some 45, none, none, none, none, none, none⟩
      = some (-45, 45, 0)
    ∧ (⟨true, none, none, none, some true, some 45, none, none, none, none, none, none⟩ :
        RawState).oscillation_angle_high = none := by decide

/-- C4 (amended): the oscillation range is present exactly when the raw
`oscillation` flag is truthy, regardless of the bounds; each bound that is
absent (or zero) is substituted with `0`, and the range is computed from
the substituted values (`high - low`). -/
theorem claim_C4_amended (raw : RawState) :
    (oscillationView raw).isSome = pyTruthyBool raw.oscillation
    ∧ (pyTruthyBool raw.oscillation = true →
        oscillationView raw =
          some (pyOrInt raw.oscillation_angle_high 0 - pyOrInt raw.oscillation_angle_low 0,
            pyOrInt raw.oscillation_angle_low 0, pyOrInt raw.oscillation_angle_high 0)) := by
  unfold oscillationView
  by_cases h : pyTruthyBool raw.oscillation <;> simp [h]

theorem claim_C4_witness :
    oscillationView
        ⟨true, none, none, some 3, some true, none, some 90, none, none, none, none, none⟩
      = some (90, 0, 90) :=
  (claim_C4_amended
    ⟨true, none, none, some 3, some true, none, some 90, none, none, none, none, none⟩).2
    (by decide)

/-- C5, counterexample: with heat mode on and `heat_target` absent, the
heat row shows a target of `20` °C (the substituted default `293 - 273`),
not an absent target. -/
theorem claim_C5_counterexample :
    heatView ⟨true, none, none, none, none, none, none, none, some true, none, none, none⟩
      = some (.heatOn 20)
    ∧ (⟨true, none, none, none, none, none, none, none, some true, none, none, none⟩ :
        RawState).heat_target = none := by decide

/-- C5 (amended): normalization does substitute defaults for some absent
fields: with heat mode on, the displayed target is
`(heat_target or 293) - 273`, so an absent (or zero) `heat_target` is
reported as the default `20` °C rather than as absent. -/
theorem claim_C5_amended (raw : RawState) (h : raw.heat_mode_is_on = some true) :
    heatView raw = some (.heatOn (pyOrInt raw.heat_target 293 - 273))
    ∧ (raw.heat_target = none → heatView raw = some (.heatOn 20)) := by
  unfold heatView
  rw [h]
  refine ⟨by simp, fun ht => ?_⟩
  simp [ht, pyOrInt]

theorem claim_C5_witness :
    heatView ⟨true, none, none, none, none, none, none, none, some true, some 295, none, none⟩
      = some (.heatOn 22) :=
  (claim_C5_amended
    ⟨true, none, none, none, none, none, none, none, some true, some 295, none, none⟩ rfl).1

/-- C9: for every raw temperature reading `t`, the human status table
shows `t - 273` (Celsius) while the JSON output of the same read preserves
the raw value `t` unchanged. -/
theorem claim_C9 (raw : RawState) (t : Int) (h : raw.temperature = some t) :
    temperatureView raw = some (t - 273) ∧ temperatureJson raw = some t := by
  unfold temperatureView temperatureJson
  rw [h]
  exact ⟨rfl, rfl⟩

theorem claim_C9_witness :
    temperatureView
        ⟨true, none, none, none, none, none, none, none, none, none, some 300, none⟩
      = some 27
    ∧ temperatureJson
        ⟨true, none, none, none, none, none, none, none, none, none, some 300, none⟩
      = some 300 :=
  claim_C9 ⟨true, none, none, none, none, none, none, none, none, none, some 300, none⟩ 300 rfl

/-- C1, counterexample: a power-on session against a resolved device with
a configured address, in which `turn_on` raises: the trace shows the
session began connecting and then attempted the operation, the handler
exits with the connection-failure code, and no disconnect is ever
attempted — the `try`/`except` has no `finally`, so disconnection happens
only on the success path. -/
theorem claim_C1_counterexample :
    (controlPower (some "Bedroom")
        ⟨[⟨"Bedroom", "ABC123", "c1", "438", some "192.168.1.10"⟩], none⟩ true false
        ⟨false, true, false, false, false, false, false⟩).calls
      = [.connectCall "192.168.1.10", .turnOnCall]
    ∧ CallEv.disconnectCall ∉
        (controlPower (some "Bedroom")
          ⟨[⟨"Bedroom", "ABC123", "c1", "438", some "192.168.1.10"⟩], none⟩ true false
          ⟨false, true, false, false, false, false, false⟩).calls
    ∧ (controlPower (some "Bedroom")
        ⟨[⟨"Bedroom", "ABC123", "c1", "438", some "192.168.1.10"⟩], none⟩ true false
        ⟨false, true, false, false, false, false, false⟩).outcome
      = .exitWith EXIT_CONNECTION_ERROR := by decide

/-- C1 (amended): a disconnect is attempted only on the success path: in
both the control-power and the status session, the disconnect call appears
in the trace exactly when the connect and the subsequent operation (or
state read) completed without raising; when an exception is raised while
connecting or operating, the handler catches it and exits without
attempting a disconnect. -/
theorem claim_C1_amended (b : ClientBehavior) (power_on : Bool) (ip : String) :
    (CallEv.disconnectCall ∈ (controlPowerTry b power_on ip).1
      ↔ b.connectRaises = false
        ∧ (if power_on then b.turnOnRaises else b.turnOffRaises) = false)
    ∧ (CallEv.disconnectCall ∈ (statusTry b ip).1
      ↔ b.connectRaises = false ∧ b.readRaises = false) := by
  obtain ⟨c, t1, t2, s1, a1, r1, d1⟩ := b
  unfold controlPowerTry statusTry
  cases power_on <;> cases c <;> cases t1 <;> cases t2 <;> cases r1 <;> cases d1 <;> simp

/-- C6: for every control operation invoked with dry-run on a resolved
device with a configured (truthy) address, the handler makes zero calls to
the device-protocol client, leaves the persisted config unchanged,
returns normally, and prints one message naming the action and the target
device and address — shown here for power on/off and for fan-speed. -/
theorem claim_C6 (cfg : Config) (device_name : Option String) (b : ClientBehavior)
    (dc : DeviceConfig) (ip speed : String) (power_on : Bool)
    (hdc : get_device device_name cfg = some dc)
    (hip : dc.ip = some ip) (hne : ip ≠ "") :
    controlPower device_name cfg power_on true b =
      ⟨[], cfg, .ok,
        ["[dim]Would " ++ (if power_on then "turn on" else "turn off") ++ " " ++ dc.name
          ++ " at " ++ ip ++ "[/dim]"]⟩
    ∧ fanSpeed speed device_name cfg true b =
      ⟨[], cfg, .ok,
        ["[dim]Would set fan speed to " ++ speed ++ " on " ++ dc.name ++ " at " ++ ip
          ++ "[/dim]"]⟩ := by
  unfold controlPower fanSpeed
  rw [hdc]
  simp [pyTruthyStr, hip, hne]

theorem claim_C6_witness :
    controlPower (some "Fan") ⟨[⟨"Fan", "F1", "c", "438", some "10.0.0.5"⟩], none⟩ true true
        ⟨false, false, false, false, false, false, false⟩ =
      ⟨[], ⟨[⟨"Fan", "F1", "c", "438", some "10.0.0.5"⟩], none⟩, .ok,
        ["[dim]Would turn on Fan at 10.0.0.5[/dim]"]⟩
    ∧ fanSpeed "7" (some "Fan") ⟨[⟨"Fan", "F1", "c", "438", some "10.0.0.5"⟩], none⟩ true
        ⟨false, false, false, false, false, false, false⟩ =
      ⟨[], ⟨[⟨"Fan", "F1", "c", "438", some "10.0.0.5"⟩], none⟩, .ok,
        ["[dim]Would set fan speed to 7 on Fan at 10.0.0.5[/dim]"]⟩ :=
  claim_C6 ⟨[⟨"Fan", "F1", "c", "438", some "10.0.0.5"⟩], none⟩ (some "Fan")
    ⟨false, false, false, false, false, false, false⟩
    ⟨"Fan", "F1", "c", "438", some "10.0.0.5"⟩ "10.0.0.5" "7" true
    (by decide) rfl (by decide)

/-- C7: address resolution short-circuits and is idempotent after success:
(a) a record whose address is already set (truthy) is returned as-is with
zero discovery scans and zero saves; (b) with no stored address and a scan
reporting a matching serial, the discovered address is written onto every
matching record of the full config and saved, and every matching record of
the saved config then carries the address, so a second invocation on it
takes the short-circuit path (zero discovery scans). -/
theorem claim_C7 (dc : DeviceConfig) (cfg : Config) (scan : List (String × String)) :
    (∀ a, dc.ip = some a → a ≠ "" →
      resolveAddress dc cfg scan = ⟨some a, cfg, 0, 0⟩)
    ∧ (pyTruthyStr dc.ip = false →
        ∀ a, findScan dc.serial scan = some a → a ≠ "" →
          resolveAddress dc cfg scan = ⟨some a, persistIp dc.serial a cfg, 1, 1⟩
          ∧ ∀ d', d' ∈ (persistIp dc.serial a cfg).devices → d'.serial = dc.serial →
              d'.ip = some a
              ∧ ∀ scan2, resolveAddress d' (persistIp dc.serial a cfg) scan2
                  = ⟨some a, persistIp dc.serial a cfg, 0, 0⟩) := by
  constructor
  · intro a h hne
    unfold resolveAddress
    simp [pyTruthyStr, h, hne]
  · intro hfalsy a hscan hne
    have h1 : resolveAddress dc cfg scan = ⟨some a, persistIp dc.serial a cfg, 1, 1⟩ := by
      unfold resolveAddress
      rw [hfalsy]
      simp [hscan]
    refine ⟨h1, fun d' hmem hser => ?_⟩
    have hip : d'.ip = some a := by
      simp only [persistIp, List.mem_map] at hmem
      obtain ⟨d0, _, hd0⟩ := hmem
      by_cases h0 : d0.serial = dc.serial
      · rw [← hd0]
        simp [h0]
      · rw [← hd0] at hser
        simp [h0] at hser
    refine ⟨hip, fun scan2 => ?_⟩
    unfold resolveAddress
    simp [pyTruthyStr, hip, hne]

theorem claim_C7_witness :
    resolveAddress ⟨"Purifier", "S1", "c", "438", none⟩
        ⟨[⟨"Purifier", "S1", "c", "438", none⟩], none⟩ [("S1", "10.0.0.9")]
      = ⟨some "10.0.0.9", ⟨[⟨"Purifier", "S1", "c", "438", some "10.0.0.9"⟩], none⟩, 1, 1⟩
    ∧ resolveAddress ⟨"Purifier", "S1", "c", "438", some "10.0.0.9"⟩
        ⟨[⟨"Purifier", "S1", "c", "438", some "10.0.0.9"⟩], none⟩ [("S1", "10.0.0.9")]
      = ⟨some "10.0.0.9", ⟨[⟨"Purifier", "S1", "c", "438", some "10.0.0.9"⟩], none⟩, 0, 0⟩ := by
  have h := (claim_C7 ⟨"Purifier", "S1", "c", "438", none⟩
      ⟨[⟨"Purifier", "S1", "c", "438", none⟩], none⟩ [("S1", "10.0.0.9")]).2
    rfl "10.0.0.9" rfl (by decide)
  exact ⟨h.1,
    (h.2 ⟨"Purifier", "S1", "c", "438", some "10.0.0.9"⟩ (by decide) rfl).2
      [("S1", "10.0.0.9")]⟩

/-- C8: when a removal is applied, the default is reassigned to the first
remaining record's name exactly when the removed record's name was the
current default (becoming `none` when the collection empties); removing a
record that is not the default leaves the default unchanged — for every
collection. -/
theorem claim_C8 (name : String) (force confirmAnswer : Bool) (cfg : Config)
    (d : DeviceConfig) (cfg' : Config)
    (hfind : findRemoval name cfg.devices = some d)
    (hrem : remove_device name force confirmAnswer cfg = .removed cfg') :
    (cfg.default_device = some d.name →
      cfg'.default_device = (cfg'.devices.head?).map DeviceConfig.name)
    ∧ (cfg.default_device ≠ some d.name → cfg'.default_device = cfg.default_device)
    ∧ (cfg.default_device = some d.name → cfg'.devices = [] →
        cfg'.default_device = none) := by
  unfold remove_device at hrem
  rw [hfind] at hrem
  by_cases hc : ¬force ∧ ¬confirmAnswer
  · simp [hc] at hrem
  · simp only [hc, if_false] at hrem
    by_cases hdef : cfg.default_device = some d.name
    · simp only [hdef, if_true] at hrem
      injection hrem with hrem
      have h1 : cfg'.default_device = (cfg'.devices.head?).map DeviceConfig.name := by
        rw [← hrem]
      exact ⟨fun _ => h1, fun h => absurd hdef h,
        fun _ hemp => by rw [h1, hemp]; rfl⟩
    · simp only [hdef, if_false] at hrem
      injection hrem with hrem
      refine ⟨fun h => absurd h hdef, fun _ => ?_, fun h => absurd h hdef⟩
      rw [← hrem]

theorem claim_C8_witness :
    remove_device "Alpha" true false
        ⟨[⟨"Alpha", "A1", "c", "438", none⟩, ⟨"Beta", "B1", "c", "438", none⟩], some "Alpha"⟩
      = .removed ⟨[⟨"Beta", "B1", "c", "438", none⟩], some "Beta"⟩
    ∧ (⟨[⟨"Beta", "B1", "c", "438", none⟩], some "Beta"⟩ : Config).default_device
        = ((⟨[⟨"Beta", "B1", "c", "438", none⟩], some "Beta"⟩ : Config).devices.head?).map
            DeviceConfig.name := by
  refine ⟨by decide, ?_⟩
  exact (claim_C8 "Alpha" true false
      ⟨[⟨"Alpha", "A1", "c", "438", none⟩, ⟨"Beta", "B1", "c", "438", none⟩], some "Alpha"⟩
      ⟨"Alpha", "A1", "c", "438", none⟩
      ⟨[⟨"Beta", "B1", "c", "438", none⟩], some "Beta"⟩
      (by decide) (by decide)).1 rfl

end DysonCli
